import Mathlib

/-!
Shallow embedding of the RAG_LANG retrieval-and-answer pipeline
(src/utils.py, src/groq_client.py, src/vector_store.py,
src/document_processor.py, src/rag_system.py) and proofs of the
specification claims about it.

External collaborators (the Groq HTTP endpoint, the Ollama embedding
backend, the persistent Chroma index, and the langchain file loaders)
are modelled as oracle parameters: each embedded operation takes the
outcome of its external calls as an argument, with `Except String α`
standing for a Python call that either returns a value or raises an
exception carrying `str(e)`.
-/

namespace RAGLang

/-- A langchain document/chunk: `page_content` plus provenance metadata
(the originating file path). -/
structure Doc where
  page_content : String
  source : String
  deriving DecidableEq, Repr

/-- config.py `LanguageConfig.hindi_threshold` default (0.3), as an exact
rational. -/
def hindi_threshold : ℚ := 3 / 10

/-- config.py `VectorStoreConfig.similarity_search_k` default. -/
def similarity_search_k : Nat := 3

/-- utils.py line 25: the Devanagari-block test
`'ऀ' <= char <= 'ॿ'`. -/
def isDevanagari (c : Char) : Bool :=
  0x0900 ≤ c.toNat && c.toNat ≤ 0x097F

/-- The restriction of Python `str.isalpha` to the Basic Latin and
Devanagari blocks (the two scripts this product handles): ASCII letters,
plus the Devanagari code points whose Unicode category is a letter
category (independent vowels and consonants U+0904–U+0939, avagraha
U+093D, OM U+0950, additional consonants and vocalics U+0958–U+0961,
and U+0971–U+097F).  Combining vowel signs, digits and punctuation in
the block are not alphabetic, exactly as in Python.  Used only to
instantiate theorems that are otherwise parametric in the alphabet
predicate. -/
def pyIsAlpha (c : Char) : Bool :=
  (('A' ≤ c && c ≤ 'Z') || ('a' ≤ c && c ≤ 'z'))
  || (0x0904 ≤ c.toNat && c.toNat ≤ 0x0939)
  || c.toNat = 0x093D || c.toNat = 0x0950
  || (0x0958 ≤ c.toNat && c.toNat ≤ 0x0961)
  || (0x0971 ≤ c.toNat && c.toNat ≤ 0x097F)

/-- Embedding of utils.py `detect_language` (lines 14–37), parametric in
the host language's `str.isalpha` predicate and in the configured
threshold (`config.language.hindi_threshold`).  The float division and
comparison of the source are modelled exactly over ℚ. -/
def detect_language (isAlpha : Char → Bool) (threshold : ℚ) (text : String) : String :=
  let hindi_chars := (text.data.filter isDevanagari).length
  let total_chars := (text.data.filter isAlpha).length
  if total_chars = 0 then "english"
  else if (hindi_chars : ℚ) / (total_chars : ℚ) > threshold then "hindi"
  else "english"

/-- utils.py `get_language_messages()['no_docs_error'][lang]`
(lines 153–156), for the two languages `detect_language` can return. -/
def no_docs_error (lang : String) : String :=
  if lang = "hindi" then "कृपया पहले दस्तावेज़ अपलोड करके प्रोसेस करें!"
  else "Please upload and process documents first!"

/-- utils.py `ErrorHandler.handle_api_error` (lines 185–200). -/
def ErrorHandler.handle_api_error (error : String) (language : String) : String :=
  if language = "hindi" then "API त्रुटि: " ++ error
  else "API Error: " ++ error

/-- utils.py `ErrorHandler.handle_processing_error` (lines 202–217). -/
def ErrorHandler.handle_processing_error (error : String) (language : String) : String :=
  if language = "hindi" then "प्रसंस्करण त्रुटि: " ++ error
  else "Processing Error: " ++ error

/-- utils.py `ErrorHandler.handle_connection_error` (lines 219–234). -/
def ErrorHandler.handle_connection_error (error : String) (language : String) : String :=
  if language = "hindi" then "कनेक्शन त्रुटि: " ++ error
  else "Connection Error: " ++ error

/-- utils.py `get_system_prompts()` (lines 164–179) looked up with
`.get(language, prompts['english'])` as in groq_client.py line 56:
any language other than "hindi" falls back to the English prompt. -/
def get_system_prompt (language : String) : String :=
  if language = "hindi" then
    "आप एक सहायक AI असिस्टेंट हैं। आपको हमेशा हिंदी में जवाब देना है। \n        यदि context दिया गया है तो उसके आधार पर जवाब दें। अगर आपको context में जवाब नहीं मिलता तो कहें कि \"मुझे इस बारे में जानकारी नहीं है।\"\n        स्पष्ट, संक्षिप्त और सही हिंदी में उत्तर दें।"
  else
    "You are a helpful AI assistant. Always respond in English only. \n        If context is provided, base your answer on that context. If you don't know the answer from the context, say \"I don't have information about this.\"\n        Provide clear, concise answers in proper English."

/-- groq_client.py `GroqClient._create_prompt` (lines 44–67); Python's
`if context:` truthiness test is non-emptiness. -/
def create_prompt (question context language : String) : String :=
  let system_instruction := get_system_prompt language
  if language = "hindi" then
    if context ≠ "" then
      system_instruction ++ "\n\nसंदर्भ (Context): " ++ context ++ "\n\nप्रश्न: " ++ question
        ++ "\n\nउत्तर (केवल हिंदी में):"
    else
      system_instruction ++ "\n\nप्रश्न: " ++ question ++ "\n\nउत्तर (केवल हिंदी में):"
  else
    if context ≠ "" then
      system_instruction ++ "\n\nContext: " ++ context ++ "\n\nQuestion: " ++ question
        ++ "\n\nAnswer (in English only):"
    else
      system_instruction ++ "\n\nQuestion: " ++ question ++ "\n\nAnswer (in English only):"

/-- Outcome of extracting `response.json()["choices"][0]["message"]["content"]`
on an HTTP 200 response: either the content string, or the message of the
exception the extraction raised. -/
inductive JsonExtract where
  | content (s : String)
  | raiseErr (s : String)
  deriving DecidableEq, Repr

/-- Outcome of the `requests.post` call in groq_client.py lines 107–112:
a response with a status code, body text and JSON-extraction outcome, or
one of the exception classes distinguished by the handlers in
lines 122–131. -/
inductive HttpResult where
  | response (status : Nat) (text : String) (extract : JsonExtract)
  | timeoutExc
  | connectionExc
  | otherExc (msg : String)
  deriving DecidableEq, Repr

/-- The f-string of groq_client.py line 119:
`f"API Error {status_code}: {text}"`. -/
def apiErrorString (status : Nat) (text : String) : String :=
  "API Error " ++ toString status ++ ": " ++ text

/-- Embedding of groq_client.py `GroqClient.chat` (lines 86–131).  The
HTTP call is an oracle from the rendered prompt to an `HttpResult`;
every path returns a string. -/
def GroqClient.chat (question context language : String) (http : String → HttpResult) : String :=
  let full_prompt := create_prompt question context language
  match http full_prompt with
  | .response status text extract =>
    if status = 200 then
      match extract with
      | .content c => c
      | .raiseErr m => ErrorHandler.handle_api_error m language
    else
      ErrorHandler.handle_api_error (apiErrorString status text) language
  | .timeoutExc => ErrorHandler.handle_connection_error "Request timed out" language
  | .connectionExc => ErrorHandler.handle_connection_error "Failed to connect to Groq API" language
  | .otherExc m => ErrorHandler.handle_api_error m language

/-- Python's substring test `needle in hay` on strings. -/
def strContains (needle hay : String) : Bool :=
  decide (needle.data <:+: hay.data)

/-- groq_client.py `GroqClient.test_connection` (lines 133–149): a real
`chat` call with a fixed greeting, treating the presence of "Error" in
the returned string as failure. -/
def GroqClient.test_connection (http : String → HttpResult) : Bool × String :=
  let test_response := GroqClient.chat "Hello" "" "english" http
  if strContains "Error" test_response then (false, test_response)
  else (true, "Groq API connection successful")

/-- Constant-outcome HTTP oracles used to state claims about `chat`. -/
def constHttp (r : HttpResult) : String → HttpResult := fun _ => r

/-- C3 witness oracle: the backend answers 500 with body "boom". -/
def wHttp500 : String → HttpResult := constHttp (.response 500 "boom" (.raiseErr "j"))

/-- C4 witness oracle: the chat backend times out. -/
def wHttpDown : String → HttpResult := constHttp .timeoutExc

/-- The mutable attributes of vector_store.py `VectorStoreManager`:
`embeddings` and `vectorstore` are modelled by whether the handle is
non-None. -/
structure VSMState where
  embeddings : Bool
  vectorstore : Bool
  documents : List Doc
  is_initialized : Bool
  deriving DecidableEq, Repr

/-- The persistent Chroma collection stored at
`config.vectorstore.chroma_dir`.  The `Chroma(persist_directory=...)`
constructor opens this collection; it never deletes its contents, so no
embedded operation other than `add_documents` changes it. -/
structure ChromaWorld where
  content : List Doc
  deriving DecidableEq, Repr

/-- Embedding of vector_store.py `VectorStoreManager.initialize`
(lines 26–56) together with `_test_embeddings` (lines 58–73).
`embedProbe` is the outcome of `self.embeddings.embed_query("test")`
(Python's falsiness of an empty vector is the `isEmpty` test) and
`chromaOpen` the outcome of the `Chroma(...)` constructor. -/
def VSM.initStore (st : VSMState) (embedProbe : Except String (List Int))
    (chromaOpen : Except String Unit) : VSMState × (Bool × String) :=
  let st1 : VSMState := { st with embeddings := true }
  match embedProbe with
  | .error e =>
    (st1, (false, "Ollama Error: " ++ e ++ ". Make sure Ollama is running with 'ollama serve'"))
  | .ok v =>
    if v.isEmpty then
      (st1, (false, "Ollama embeddings failed - make sure Ollama is running"))
    else
      match chromaOpen with
      | .error e => (st1, (false, "Vector store initialization failed: " ++ e))
      | .ok _ =>
        ({ st1 with vectorstore := true, is_initialized := true },
         (true, "Vector store initialized successfully"))

/-- Embedding of vector_store.py `VectorStoreManager.add_documents`
(lines 75–103).  `addCall` is the outcome of
`self.vectorstore.add_documents(documents)`; on success the chunks are
appended both to the persistent collection and to the in-memory mirror. -/
def VSM.add_documents (st : VSMState) (w : ChromaWorld) (documents : List Doc)
    (addCall : Except String Unit) : (VSMState × ChromaWorld) × (Bool × String) :=
  if st.is_initialized = false then ((st, w), (false, "Vector store not initialized"))
  else if documents.isEmpty then ((st, w), (false, "No documents provided"))
  else
    match addCall with
    | .error e => ((st, w), (false, ErrorHandler.handle_processing_error e "english"))
    | .ok _ =>
      let n := documents.length
      (({ st with documents := st.documents ++ documents },
        { content := w.content ++ documents }),
       (true, s!"Added {n} document chunks to vector store"))

/-- vector_store.py line 120: `k = k or config.vectorstore.similarity_search_k`
(Python `or` also replaces a falsy explicit 0). -/
def effectiveK (k : Option Nat) : Nat :=
  match k with
  | none => similarity_search_k
  | some n => if n = 0 then similarity_search_k else n

/-- Embedding of vector_store.py `VectorStoreManager.similarity_search`
(lines 105–131).  `retrieve` is the Chroma retriever collaborator: given
the query, `k` and the persisted chunks it returns the ranked results or
raises; both guard failures and raised exceptions produce `[]`. -/
def VSM.similarity_search (st : VSMState) (w : ChromaWorld)
    (retrieve : String → Nat → List Doc → Except String (List Doc))
    (query : String) (k : Option Nat) : List Doc :=
  if st.is_initialized = false || st.vectorstore = false then []
  else
    match retrieve query (effectiveK k) w.content with
    | .error _ => []
    | .ok relevant_docs => relevant_docs

/-- Embedding of vector_store.py `VectorStoreManager.get_context_from_docs`
(lines 133–158): every modelled document has `page_content`, so the
result is the "\n\n"-join of the contents. -/
def VSM.get_context_from_docs (documents : List Doc) : String :=
  if documents.isEmpty then ""
  else String.intercalate "\n\n" (documents.map Doc.page_content)

/-- Embedding of vector_store.py `VectorStoreManager.clear_documents`
(lines 160–182): the in-memory list is emptied first; if the manager is
initialized the Chroma collection at the configured directory is then
re-opened (`chromaOpen` is that constructor's outcome).  Re-opening does
not touch the persistent `ChromaWorld`, which is why this function
neither receives nor returns one. -/
def VSM.clear_documents (st : VSMState) (chromaOpen : Except String Unit) :
    VSMState × (Bool × String) :=
  let st1 : VSMState := { st with documents := [] }
  if st.is_initialized = true then
    match chromaOpen with
    | .error e => (st1, (false, "Error clearing documents: " ++ e))
    | .ok _ => ({ st1 with vectorstore := true }, (true, "Documents cleared successfully"))
  else (st1, (true, "Documents cleared successfully"))

/-- vector_store.py `VectorStoreManager.get_document_count`
(lines 184–191): length of the in-memory mirror. -/
def VSM.get_document_count (st : VSMState) : Nat :=
  st.documents.length

/-- The attributes of rag_system.py `RAGSystem` relevant to the claims:
`groq_client` models whether the client attribute is non-None. -/
structure RAGState where
  groq_client : Bool
  vs : VSMState
  is_initialized : Bool
  deriving DecidableEq, Repr

/-- Which external calls a run of `RAGSystem.query` performed. -/
structure QueryEffects where
  searchCalled : Bool
  chatCalled : Bool
  deriving DecidableEq, Repr

/-- Embedding of rag_system.py `RAGSystem.initialize` (lines 23–52):
construct the Groq client, run `test_connection` (via `http`), and only
on success run `VectorStoreManager.initialize`; `is_initialized` is set
only when both succeed.  The `GroqClient` constructor cannot raise here
because config.py aborted startup when the API key was absent. -/
def RAGSystem.initSys (st : RAGState) (http : String → HttpResult)
    (embedProbe : Except String (List Int)) (chromaOpen : Except String Unit) :
    RAGState × (Bool × String) :=
  let st1 : RAGState := { st with groq_client := true }
  let groqRes := GroqClient.test_connection http
  if groqRes.1 = false then
    (st1, (false, "Groq initialization failed: " ++ groqRes.2))
  else
    let vsRes := VSM.initStore st.vs embedProbe chromaOpen
    if vsRes.2.1 = false then
      ({ st1 with vs := vsRes.1 }, (false, "Vector store initialization failed: " ++ vsRes.2.2))
    else
      ({ st1 with vs := vsRes.1, is_initialized := true },
       (true, "RAG system initialized successfully!"))

/-- Embedding of rag_system.py `RAGSystem.query` (lines 91–129).
Language detection runs first; the document-count and initialization
guards return localized messages with empty sources before any external
call; otherwise the try-block runs similarity search (`searchO`),
context construction and the Groq chat call (`chatO`, applied to the
built context), and a raised exception at either oracle is caught and
rendered by `ErrorHandler.handle_api_error` in the detected language.
The returned `QueryEffects` records which oracle calls were reached. -/
def RAGSystem.query (isAlpha : Char → Bool) (threshold : ℚ) (st : RAGState)
    (question : String) (searchO : String → Except String (List Doc))
    (chatO : String → Except String String) : (String × List Doc) × QueryEffects :=
  let detected_language := detect_language isAlpha threshold question
  if VSM.get_document_count st.vs = 0 then
    ((no_docs_error detected_language, []), ⟨false, false⟩)
  else if st.is_initialized = false then
    ((if detected_language = "hindi" then "सिस्टम तैयार नहीं है!" else "System not initialized!",
      []), ⟨false, false⟩)
  else
    match searchO question with
    | .error e => ((ErrorHandler.handle_api_error e detected_language, []), ⟨true, false⟩)
    | .ok relevant_docs =>
      let context := VSM.get_context_from_docs relevant_docs
      match chatO context with
      | .error e => ((ErrorHandler.handle_api_error e detected_language, []), ⟨true, true⟩)
      | .ok answer => ((answer, relevant_docs), ⟨true, true⟩)

/-- A sample chunk used by concrete scenarios. -/
def docAlpha : Doc := ⟨"alpha content", "a.txt"⟩

/-- A second sample chunk used by concrete scenarios. -/
def docBeta : Doc := ⟨"beta content", "b.txt"⟩

/-- A fresh, never-initialized manager state. -/
def vsm0 : VSMState := ⟨false, false, [], false⟩

/-- A ready manager state with an empty in-memory mirror. -/
def vsmReady : VSMState := ⟨true, true, [], true⟩

/-- A fresh, never-initialized RAG system state. -/
def rag0 : RAGState := ⟨false, vsm0, false⟩

/-- An initialized RAG system state holding one chunk. -/
def ragReady : RAGState := ⟨true, ⟨true, true, [docAlpha], true⟩, true⟩

/-- Witness oracle: the retriever returns every persisted chunk in
order (a legitimate ranking of the collaborator). -/
def wRetrieveAll : String → Nat → List Doc → Except String (List Doc) :=
  fun _ _ docs => .ok docs

/-- Witness oracle: the retriever raises. -/
def wRetrieveBoom : String → Nat → List Doc → Except String (List Doc) :=
  fun _ _ _ => .error "boom"

/-- Witness oracle: similarity search finds nothing. -/
def wSearchNone : String → Except String (List Doc) := fun _ => .ok []

/-- Witness oracle: similarity search raises. -/
def wSearchBoom : String → Except String (List Doc) := fun _ => .error "boom"

/-- Witness oracle: the chat call returns an empty answer. -/
def wChatEmpty : String → Except String String := fun _ => .ok ""

/-- Python `str.lower` on the ASCII range, per character. -/
def lowerChar (c : Char) : Char :=
  if 'A' ≤ c && c ≤ 'Z' then Char.ofNat (c.toNat + 32) else c

/-- Python `str.split(sep)` for a single-character separator, over the
character list (always non-empty; splitting the empty string gives
`[[]]`, like Python's `[""]`). -/
def splitOnChar (sep : Char) : List Char → List (List Char)
  | [] => [[]]
  | c :: cs =>
    let rest := splitOnChar sep cs
    if c = sep then [] :: rest
    else
      match rest with
      | [] => [[c]]
      | r :: rs => (c :: r) :: rs

/-- document_processor.py line 68:
`'.' + file_path.split('.')[-1].lower()`. -/
def fileExtension (path : String) : List Char :=
  '.' :: ((splitOnChar '.' path.data).getLastD []).map lowerChar

/-- The closed set of loaders dispatched on extension
(document_processor.py `_get_loader`, lines 58–75). -/
inductive LoaderKind where
  | pdf
  | txt
  deriving DecidableEq, Repr

/-- document_processor.py `DocumentProcessor._get_loader` (lines 58–75):
`.pdf` → PyPDFLoader, `.txt` → TextLoader, otherwise None. -/
def get_loader (path : String) : Option LoaderKind :=
  if fileExtension path = ".pdf".data then some .pdf
  else if fileExtension path = ".txt".data then some .txt
  else none

/-- Embedding of document_processor.py `DocumentProcessor.load_documents`
(lines 28–56).  `loadO` is the outcome of `loader.load()` for a path
whose extension is supported; an unsupported extension or a raising
loader contributes a per-file error entry and the loop continues. -/
def load_documents (loadO : String → Except String (List Doc)) :
    List String → List Doc × List String
  | [] => ([], [])
  | p :: ps =>
    let rest := load_documents loadO ps
    match get_loader p with
    | none => (rest.1, ("Unsupported file type: " ++ p) :: rest.2)
    | some _ =>
      match loadO p with
      | .ok ds => (ds ++ rest.1, rest.2)
      | .error e => (rest.1, ("Error loading " ++ p ++ ": " ++ e) :: rest.2)

/-- The documents a single path contributes to a `load_documents` batch. -/
def pathDocs (loadO : String → Except String (List Doc)) (p : String) : List Doc :=
  match get_loader p with
  | none => []
  | some _ =>
    match loadO p with
    | .ok ds => ds
    | .error _ => []

/-- The error entry a single path contributes to a `load_documents`
batch, if any. -/
def pathError (loadO : String → Except String (List Doc)) (p : String) : Option String :=
  match get_loader p with
  | none => some ("Unsupported file type: " ++ p)
  | some _ =>
    match loadO p with
    | .ok _ => none
    | .error e => some ("Error loading " ++ p ++ ": " ++ e)

/-- Embedding of document_processor.py `DocumentProcessor.split_documents`
(lines 77–97): empty input yields `[]` without calling the splitter;
otherwise the langchain splitter collaborator `splitO` runs, and an
exception it raises is re-raised (propagated as `.error`). -/
def split_documents (splitO : List Doc → Except String (List Doc))
    (documents : List Doc) : Except String (List Doc) :=
  if documents.isEmpty then .ok [] else splitO documents

/-- The success message of document_processor.py lines 126–128:
`Successfully processed {n} document chunks`, plus ` (with {k} errors)`
when any load errors were collected. -/
def processSuccessMsg (n k : Nat) : String :=
  let base := s!"Successfully processed {n} document chunks"
  if k = 0 then base else base ++ s!" (with {k} errors)"

/-- Embedding of document_processor.py
`DocumentProcessor.process_documents` (lines 99–134): load, fail if
nothing loaded, split (a splitter exception is caught by the outer
handler), fail if no chunks, otherwise succeed with the count-bearing
message. -/
def process_documents (loadO : String → Except String (List Doc))
    (splitO : List Doc → Except String (List Doc)) (file_paths : List String) :
    Bool × String × List Doc :=
  let lr := load_documents loadO file_paths
  if lr.1.isEmpty then (false, "No documents loaded successfully", [])
  else
    match split_documents splitO lr.1 with
    | .error e => (false, ErrorHandler.handle_processing_error e "english", [])
    | .ok splits =>
      if splits.isEmpty then (false, "No document chunks created", [])
      else (true, processSuccessMsg splits.length lr.2.length, splits)

/-- Witness oracle: "a.txt" and "b.txt" load one document each; other
supported paths load nothing. -/
def wLoadO : String → Except String (List Doc) := fun p =>
  if p = "a.txt" then .ok [docAlpha]
  else if p = "b.txt" then .ok [docBeta]
  else .ok []

/-- Witness oracle: a splitter that returns its input unchanged. -/
def wSplitId : List Doc → Except String (List Doc) := fun ds => .ok ds

/-- Witness batch: two loadable text files and one unsupported file. -/
def wPaths : List String := ["a.txt", "b.txt", "c.xyz"]

/-- Modelled from the spec: the sliding-window chunking rule of §3/§8.2.
The splitter the repository delegates to
(`langchain.text_splitter.RecursiveCharacterTextSplitter`, configured in
document_processor.py lines 21–25) is an external library not present in
src/, so the chunk generation is taken from the spec's words: each chunk
is the `S`-character window at `start`, successive windows advance by
`S - O`, and generation stops with the window that reaches the end of
the text. -/
def chunksGo (S O : Nat) (hSO : O < S) (text : List Char) (start : Nat) :
    List (List Char) :=
  if _h : text.length ≤ start + S then [(text.drop start).take S]
  else ((text.drop start).take S) :: chunksGo S O hSO text (start + (S - O))
termination_by text.length - start
decreasing_by
  omega

/-- Modelled from the spec: split one document's text into overlapping
chunks, defined for `O < S` (the spec's invariant
`0 ≤ chunk_overlap < chunk_size`). -/
def split_text (S O : Nat) (text : List Char) : List (List Char) :=
  if h : O < S then chunksGo S O h text 0 else [text]

/-- Concatenation of the chunks' non-overlapping portions: the first
chunk whole, every later chunk with its first `O` characters (the
overlap it shares with its predecessor) removed. -/
def reconstructChunks (O : Nat) : List (List Char) → List Char
  | [] => []
  | c :: cs => c ++ (cs.map (List.drop O)).flatten

/-- C5: `detect_language` is a total, deterministic pure function: any text
with zero alphabetic characters (including the empty string) yields
"english"; otherwise it yields "hindi" exactly when the ratio of
Devanagari-block characters to alphabetic characters strictly exceeds
the threshold, and a ratio exactly equal to the threshold yields
"english" (strict `>` comparison). -/
theorem detect_language_spec (isAlpha : Char → Bool) (threshold : ℚ) (text : String) :
    ((text.data.filter isAlpha).length = 0 →
      detect_language isAlpha threshold text = "english") ∧
    ((text.data.filter isAlpha).length ≠ 0 →
      (detect_language isAlpha threshold text = "hindi" ↔
        ((text.data.filter isDevanagari).length : ℚ) /
          ((text.data.filter isAlpha).length : ℚ) > threshold)) ∧
    ((text.data.filter isAlpha).length ≠ 0 →
      ((text.data.filter isDevanagari).length : ℚ) /
        ((text.data.filter isAlpha).length : ℚ) = threshold →
      detect_language isAlpha threshold text = "english") := by
  refine ⟨fun h => ?_, fun h => ?_, fun h hr => ?_⟩
  · simp [detect_language, h]
  · by_cases hgt : ((text.data.filter isDevanagari).length : ℚ) /
        ((text.data.filter isAlpha).length : ℚ) > threshold
    · simp [detect_language, h, hgt]
    · simp only [detect_language, if_neg h, if_neg hgt]
      constructor
      · intro he
        exact absurd he (by decide)
      · intro hc
        exact absurd hc hgt
  · have hngt : ¬ (((text.data.filter isDevanagari).length : ℚ) /
        ((text.data.filter isAlpha).length : ℚ) > threshold) := by
      rw [hr]
      exact lt_irrefl threshold
    simp [detect_language, h, hngt]

/-- Concrete ratio fact used by the C5 witness: the probe text has 6
Devanagari-block characters among 10 alphabetic characters. -/
theorem namaste_ratio :
    ((("नमस्ते friend".data.filter isDevanagari).length : ℚ)) /
      ((("नमस्ते friend".data.filter pyIsAlpha).length : ℚ)) > hindi_threshold := by
  have h1 : ("नमस्ते friend".data.filter isDevanagari).length = 6 := by decide
  have h2 : ("नमस्ते friend".data.filter pyIsAlpha).length = 10 := by decide
  rw [h1, h2, hindi_threshold]
  norm_num

/-- Witness for C5: the empty string maps to "english" and a
majority-Devanagari text maps to "hindi" at the default threshold. -/
theorem detect_language_spec_witness :
    detect_language pyIsAlpha hindi_threshold "" = "english" ∧
    detect_language pyIsAlpha hindi_threshold "नमस्ते friend" = "hindi" := by
  refine ⟨(detect_language_spec pyIsAlpha hindi_threshold "").1 (by decide), ?_⟩
  exact ((detect_language_spec pyIsAlpha hindi_threshold "नमस्ते friend").2.1
    (by decide)).mpr namaste_ratio

/-- An infix of `l₂` is an infix of `l₁ ++ l₂`. -/
theorem infix_append_left {α : Type} (l₁ : List α) {l l₂ : List α} (h : l <:+: l₂) :
    l <:+: l₁ ++ l₂ := by
  obtain ⟨s, t, rfl⟩ := h
  exact ⟨l₁ ++ s, t, by simp⟩

/-- An infix of `l₁` is an infix of `l₁ ++ l₂`. -/
theorem infix_append_right {α : Type} {l l₁ : List α} (h : l <:+: l₁) (l₂ : List α) :
    l <:+: l₁ ++ l₂ := by
  obtain ⟨s, t, rfl⟩ := h
  exact ⟨s, t ++ l₂, by simp⟩

/-- The connection-error rendering never coincides with the API-error
rendering, whatever the embedded messages: the two localized prefixes
start with different characters in both languages. -/
theorem connection_error_ne_api_error (m₁ m₂ language : String) :
    ErrorHandler.handle_connection_error m₁ language ≠
      ErrorHandler.handle_api_error m₂ language := by
  unfold ErrorHandler.handle_connection_error ErrorHandler.handle_api_error
  by_cases h : language = "hindi"
  · simp only [if_pos h]
    intro hEq
    have hd := congrArg String.data hEq
    rw [String.data_append, String.data_append] at hd
    have e1 : ("कनेक्शन त्रुटि: " : String).data = 'क' :: ("नेक्शन त्रुटि: " : String).data := rfl
    have e2 : ("API त्रुटि: " : String).data = 'A' :: ("PI त्रुटि: " : String).data := rfl
    rw [e1, e2, List.cons_append, List.cons_append] at hd
    injection hd with hd1 _
    exact absurd hd1 (by decide)
  · simp only [if_neg h]
    intro hEq
    have hd := congrArg String.data hEq
    rw [String.data_append, String.data_append] at hd
    have e1 : ("Connection Error: " : String).data = 'C' :: ("onnection Error: " : String).data := rfl
    have e2 : ("API Error: " : String).data = 'A' :: ("PI Error: " : String).data := rfl
    rw [e1, e2, List.cons_append, List.cons_append] at hd
    injection hd with hd1 _
    exact absurd hd1 (by decide)

/-- Anything infix of the embedded message is infix of the API-error
rendering, in either language. -/
theorem infix_handle_api (s inner language : String) (h : s.data <:+: inner.data) :
    s.data <:+: (ErrorHandler.handle_api_error inner language).data := by
  unfold ErrorHandler.handle_api_error
  split
  · rw [String.data_append]
    exact infix_append_left _ h
  · rw [String.data_append]
    exact infix_append_left _ h

/-- "Error" occurs in the f-string `API Error {status}: {text}`. -/
theorem infix_apiErrorString_error (status : Nat) (text : String) :
    "Error".data <:+: (apiErrorString status text).data := by
  unfold apiErrorString
  rw [String.data_append, String.data_append, String.data_append]
  have h0 : "Error".data <:+: ("API Error " : String).data := by decide
  exact infix_append_right (infix_append_right (infix_append_right h0 _) _) _

/-- The decimal status code occurs in `API Error {status}: {text}`. -/
theorem infix_apiErrorString_status (status : Nat) (text : String) :
    (toString status).data <:+: (apiErrorString status text).data := by
  unfold apiErrorString
  rw [String.data_append, String.data_append, String.data_append]
  exact infix_append_right (infix_append_right
    (infix_append_left _ (List.infix_refl _)) _) _

/-- C3: `GroqClient.chat` returns a string on every outcome of the HTTP
call (all four constructors are mapped to result strings, never an
exception): a non-200 response yields an error string containing "Error"
and the decimal status code; a timeout and a connection failure yield
connection-specific error strings distinct from the non-200 string; and
all error strings are rendered with the Hindi prefix when
`language = "hindi"` and the English prefix otherwise. -/
theorem groq_chat_error_mapping (question context language text m : String)
    (status : Nat) (ex : JsonExtract) :
    (∀ c, GroqClient.chat question context language
        (constHttp (.response 200 text (.content c))) = c) ∧
    (GroqClient.chat question context language
        (constHttp (.response 200 text (.raiseErr m))) =
      ErrorHandler.handle_api_error m language) ∧
    (status ≠ 200 →
      GroqClient.chat question context language (constHttp (.response status text ex)) =
        ErrorHandler.handle_api_error (apiErrorString status text) language ∧
      "Error".data <:+:
        (GroqClient.chat question context language (constHttp (.response status text ex))).data ∧
      (toString status).data <:+:
        (GroqClient.chat question context language (constHttp (.response status text ex))).data ∧
      GroqClient.chat question context language (constHttp .timeoutExc) ≠
        GroqClient.chat question context language (constHttp (.response status text ex)) ∧
      GroqClient.chat question context language (constHttp .connectionExc) ≠
        GroqClient.chat question context language (constHttp (.response status text ex))) ∧
    (GroqClient.chat question context language (constHttp .timeoutExc) =
      ErrorHandler.handle_connection_error "Request timed out" language) ∧
    (GroqClient.chat question context language (constHttp .connectionExc) =
      ErrorHandler.handle_connection_error "Failed to connect to Groq API" language) ∧
    (GroqClient.chat question context language (constHttp (.otherExc m)) =
      ErrorHandler.handle_api_error m language) ∧
    (language = "hindi" →
      ErrorHandler.handle_api_error m language = "API त्रुटि: " ++ m ∧
      ErrorHandler.handle_connection_error m language = "कनेक्शन त्रुटि: " ++ m) ∧
    (language ≠ "hindi" →
      ErrorHandler.handle_api_error m language = "API Error: " ++ m ∧
      ErrorHandler.handle_connection_error m language = "Connection Error: " ++ m) := by
  have hne : ∀ h : status ≠ 200,
      GroqClient.chat question context language (constHttp (.response status text ex)) =
        ErrorHandler.handle_api_error (apiErrorString status text) language := by
    intro h
    simp [GroqClient.chat, constHttp, h]
  have htimeout : GroqClient.chat question context language (constHttp .timeoutExc) =
      ErrorHandler.handle_connection_error "Request timed out" language := by
    simp [GroqClient.chat, constHttp]
  have hconn : GroqClient.chat question context language (constHttp .connectionExc) =
      ErrorHandler.handle_connection_error "Failed to connect to Groq API" language := by
    simp [GroqClient.chat, constHttp]
  refine ⟨fun c => by simp [GroqClient.chat, constHttp],
    by simp [GroqClient.chat, constHttp],
    fun h => ⟨hne h, ?_, ?_, ?_, ?_⟩, htimeout, hconn,
    by simp [GroqClient.chat, constHttp],
    fun hl => by simp [ErrorHandler.handle_api_error, ErrorHandler.handle_connection_error, hl],
    fun hl => by simp [ErrorHandler.handle_api_error, ErrorHandler.handle_connection_error, hl]⟩
  · rw [hne h]
    exact infix_handle_api _ _ _ (infix_apiErrorString_error status text)
  · rw [hne h]
    exact infix_handle_api _ _ _ (infix_apiErrorString_status status text)
  · rw [hne h, htimeout]
    exact connection_error_ne_api_error _ _ _
  · rw [hne h, hconn]
    exact connection_error_ne_api_error _ _ _

/-- Witness for C3: a 500 response with body "boom" maps to the English
API-error string, which contains "Error". -/
theorem groq_chat_error_mapping_witness :
    GroqClient.chat "Q" "" "english" wHttp500 =
      ErrorHandler.handle_api_error (apiErrorString 500 "boom") "english" ∧
    "Error".data <:+: (GroqClient.chat "Q" "" "english" wHttp500).data := by
  have h := (groq_chat_error_mapping "Q" "" "english" "boom" "x" 500 (.raiseErr "j")).2.2.1
    (by decide)
  exact ⟨h.1, h.2.1⟩

/-- C4: `RAGSystem.initialize` constructs the chat client and runs
`test_connection` first; a chat failure returns
"Groq initialization failed: ..." with the vector store untouched; a
vector-store failure after a chat success returns
"Vector store initialization failed: ..."; starting uninitialized,
`is_initialized` becomes true exactly when both steps succeed. -/
theorem rag_init_spec (st : RAGState) (http : String → HttpResult)
    (embedProbe : Except String (List Int)) (chromaOpen : Except String Unit) :
    ((GroqClient.test_connection http).1 = false →
      RAGSystem.initSys st http embedProbe chromaOpen =
        ({ st with groq_client := true },
         (false, "Groq initialization failed: " ++ (GroqClient.test_connection http).2)) ∧
      (RAGSystem.initSys st http embedProbe chromaOpen).1.vs = st.vs ∧
      (RAGSystem.initSys st http embedProbe chromaOpen).1.is_initialized = st.is_initialized) ∧
    ((GroqClient.test_connection http).1 = true →
      (VSM.initStore st.vs embedProbe chromaOpen).2.1 = false →
      (RAGSystem.initSys st http embedProbe chromaOpen).2 =
        (false, "Vector store initialization failed: "
          ++ (VSM.initStore st.vs embedProbe chromaOpen).2.2) ∧
      (RAGSystem.initSys st http embedProbe chromaOpen).1.is_initialized = st.is_initialized) ∧
    (st.is_initialized = false →
      ((RAGSystem.initSys st http embedProbe chromaOpen).1.is_initialized = true ↔
        (GroqClient.test_connection http).1 = true ∧
        (VSM.initStore st.vs embedProbe chromaOpen).2.1 = true)) := by
  refine ⟨fun h => ⟨?_, ?_, ?_⟩, fun h1 h2 => ⟨?_, ?_⟩, fun h0 => ?_⟩
  · simp [RAGSystem.initSys, h]
  · simp [RAGSystem.initSys, h]
  · simp [RAGSystem.initSys, h]
  · simp [RAGSystem.initSys, h1, h2]
  · simp [RAGSystem.initSys, h1, h2]
  · by_cases hg : (GroqClient.test_connection http).1 = true
    · by_cases hv : (VSM.initStore st.vs embedProbe chromaOpen).2.1 = true
      · simp [RAGSystem.initSys, hg, hv]
      · rw [Bool.not_eq_true] at hv
        simp [RAGSystem.initSys, hg, hv, h0]
    · rw [Bool.not_eq_true] at hg
      simp [RAGSystem.initSys, hg, h0]

/-- Witness for C4: with the chat backend timing out, initialization
fails with the Groq message and the vector store state is untouched. -/
theorem rag_init_spec_witness :
    RAGSystem.initSys rag0 wHttpDown (.ok [1]) (.ok ()) =
      ({ rag0 with groq_client := true },
       (false, "Groq initialization failed: Connection Error: Request timed out")) := by
  have h := ((rag_init_spec rag0 wHttpDown (.ok [1]) (.ok ())).1 (by decide)).1
  rw [h]
  decide

/-- C7: `VectorStoreManager.similarity_search` never propagates an error:
it returns `[]` when the manager is not initialized, when the vector
store handle is absent, and when the retriever raises; only a successful
retriever call on a ready manager returns its documents. -/
theorem similarity_search_total (st : VSMState) (w : ChromaWorld)
    (retrieve : String → Nat → List Doc → Except String (List Doc))
    (query : String) (k : Option Nat) :
    (st.is_initialized = false → VSM.similarity_search st w retrieve query k = []) ∧
    (st.vectorstore = false → VSM.similarity_search st w retrieve query k = []) ∧
    (∀ e, retrieve query (effectiveK k) w.content = .error e →
      VSM.similarity_search st w retrieve query k = []) ∧
    (∀ docs, st.is_initialized = true → st.vectorstore = true →
      retrieve query (effectiveK k) w.content = .ok docs →
      VSM.similarity_search st w retrieve query k = docs) := by
  refine ⟨fun h => ?_, fun h => ?_, fun e he => ?_, fun docs h1 h2 hok => ?_⟩
  · simp [VSM.similarity_search, h]
  · simp [VSM.similarity_search, h]
  · unfold VSM.similarity_search
    split
    · rfl
    · rw [he]
  · simp [VSM.similarity_search, h1, h2, hok]

/-- Witness for C7: a raising retriever on a ready manager yields `[]`. -/
theorem similarity_search_total_witness :
    VSM.similarity_search vsmReady ⟨[docAlpha]⟩ wRetrieveBoom "q" none = [] :=
  (similarity_search_total vsmReady ⟨[docAlpha]⟩ wRetrieveBoom "q" none).2.2.1 "boom" rfl

/-- C2 is refuted by this run: after a successful `add_documents` of one
chunk and a successful `clear_documents`, the in-memory count is 0 as
claimed, but the persistent Chroma collection still holds the chunk
(the `Chroma(persist_directory=...)` constructor re-opens the collection
rather than deleting it, despite the source comment "Reinitialize vector
store to clear persisted data"), so a subsequent `similarity_search`
returns the previously ingested chunk rather than an empty sequence. -/
theorem clear_documents_persistence_bug :
    (VSM.add_documents vsmReady ⟨[]⟩ [docAlpha] (.ok ())).2 =
      (true, "Added 1 document chunks to vector store") ∧
    (VSM.clear_documents (VSM.add_documents vsmReady ⟨[]⟩ [docAlpha] (.ok ())).1.1 (.ok ())).2 =
      (true, "Documents cleared successfully") ∧
    VSM.get_document_count
      (VSM.clear_documents (VSM.add_documents vsmReady ⟨[]⟩ [docAlpha] (.ok ())).1.1
        (.ok ())).1 = 0 ∧
    (VSM.add_documents vsmReady ⟨[]⟩ [docAlpha] (.ok ())).1.2.content = [docAlpha] ∧
    VSM.similarity_search
      (VSM.clear_documents (VSM.add_documents vsmReady ⟨[]⟩ [docAlpha] (.ok ())).1.1 (.ok ())).1
      (VSM.add_documents vsmReady ⟨[]⟩ [docAlpha] (.ok ())).1.2
      wRetrieveAll "anything" none = [docAlpha] := by
  decide

/-- C10: `clear_documents` never modifies `is_initialized`; on a
never-initialized manager it still succeeds and empties the in-memory
list, whereas `add_documents` fails with "Vector store not initialized"
in that state. -/
theorem clear_documents_frame (st : VSMState) (chromaOpen : Except String Unit)
    (w : ChromaWorld) (ds : List Doc) (addCall : Except String Unit) :
    ((VSM.clear_documents st chromaOpen).1.is_initialized = st.is_initialized) ∧
    (st.is_initialized = false →
      VSM.clear_documents st chromaOpen =
        ({ st with documents := [] }, (true, "Documents cleared successfully"))) ∧
    (st.is_initialized = false →
      VSM.add_documents st w ds addCall =
        ((st, w), (false, "Vector store not initialized"))) := by
  refine ⟨?_, fun h => ?_, fun h => ?_⟩
  · unfold VSM.clear_documents
    split
    · split <;> rfl
    · rfl
  · simp [VSM.clear_documents, h]
  · simp [VSM.add_documents, h]

/-- Witness for C10: on the fresh manager, clear succeeds and add fails. -/
theorem clear_documents_frame_witness :
    VSM.clear_documents vsm0 (.ok ()) =
      ({ vsm0 with documents := [] }, (true, "Documents cleared successfully")) ∧
    VSM.add_documents vsm0 ⟨[]⟩ [docAlpha] (.ok ()) =
      ((vsm0, ⟨[]⟩), (false, "Vector store not initialized")) := by
  have h := clear_documents_frame vsm0 (.ok ()) ⟨[]⟩ [docAlpha] (.ok ())
  exact ⟨h.2.1 rfl, h.2.2 rfl⟩

/-- C1: `RAGSystem.query` detects the language first and gates on it:
with a zero document count it returns the localized "please upload and
process documents first" message with no sources and neither the
similarity search nor the chat backend is reached; with a non-zero count
and `is_initialized` false it returns the localized "system not
initialized" message, again with no sources and no external calls. -/
theorem query_gating (isAlpha : Char → Bool) (threshold : ℚ) (st : RAGState)
    (question : String) (searchO : String → Except String (List Doc))
    (chatO : String → Except String String) :
    (VSM.get_document_count st.vs = 0 →
      RAGSystem.query isAlpha threshold st question searchO chatO =
        ((no_docs_error (detect_language isAlpha threshold question), []),
         ⟨false, false⟩)) ∧
    (VSM.get_document_count st.vs ≠ 0 → st.is_initialized = false →
      RAGSystem.query isAlpha threshold st question searchO chatO =
        ((if detect_language isAlpha threshold question = "hindi" then "सिस्टम तैयार नहीं है!"
          else "System not initialized!", []), ⟨false, false⟩)) := by
  refine ⟨fun h => ?_, fun h1 h2 => ?_⟩
  · simp [RAGSystem.query, h]
  · simp [RAGSystem.query, h1, h2]

/-- Witness for C1: on the fresh system (zero documents), an English
question yields the English no-documents message, no sources, and no
external calls. -/
theorem query_gating_witness :
    RAGSystem.query pyIsAlpha hindi_threshold rag0 "hello" wSearchNone wChatEmpty =
      ((no_docs_error (detect_language pyIsAlpha hindi_threshold "hello"), []),
       ⟨false, false⟩) :=
  (query_gating pyIsAlpha hindi_threshold rag0 "hello" wSearchNone wChatEmpty).1 rfl

/-- C8: once past the gating checks, `RAGSystem.query` never raises: a
raising similarity search or a raising chat call is caught and converted
to the API-error string localized to the language detected from the
question, returned with an empty source list; a successful run returns
the answer with the retrieved chunks. -/
theorem query_error_handling (isAlpha : Char → Bool) (threshold : ℚ) (st : RAGState)
    (question : String) (searchO : String → Except String (List Doc))
    (chatO : String → Except String String)
    (h1 : VSM.get_document_count st.vs ≠ 0) (h2 : st.is_initialized = true) :
    (∀ e, searchO question = .error e →
      RAGSystem.query isAlpha threshold st question searchO chatO =
        ((ErrorHandler.handle_api_error e (detect_language isAlpha threshold question), []),
         ⟨true, false⟩)) ∧
    (∀ docs e, searchO question = .ok docs →
      chatO (VSM.get_context_from_docs docs) = .error e →
      RAGSystem.query isAlpha threshold st question searchO chatO =
        ((ErrorHandler.handle_api_error e (detect_language isAlpha threshold question), []),
         ⟨true, true⟩)) ∧
    (∀ docs answer, searchO question = .ok docs →
      chatO (VSM.get_context_from_docs docs) = .ok answer →
      RAGSystem.query isAlpha threshold st question searchO chatO =
        ((answer, docs), ⟨true, true⟩)) := by
  refine ⟨fun e he => ?_, fun docs e hs hc => ?_, fun docs answer hs hc => ?_⟩
  · simp [RAGSystem.query, h1, h2, he]
  · simp [RAGSystem.query, h1, h2, hs, hc]
  · simp [RAGSystem.query, h1, h2, hs, hc]

/-- Witness for C8: a raising search on a ready system yields the
English API-error string with empty sources. -/
theorem query_error_handling_witness :
    RAGSystem.query pyIsAlpha hindi_threshold ragReady "hello" wSearchBoom wChatEmpty =
      ((ErrorHandler.handle_api_error "boom"
          (detect_language pyIsAlpha hindi_threshold "hello"), []),
       ⟨true, false⟩) :=
  (query_error_handling pyIsAlpha hindi_threshold ragReady "hello" wSearchBoom wChatEmpty
    (by decide) rfl).1 "boom" rfl

/-- `load_documents` processes every path independently: the documents
are the concatenation of each path's contribution and the errors are
exactly the per-path error entries, so no single failure aborts the
batch. -/
theorem load_documents_eq (loadO : String → Except String (List Doc)) (paths : List String) :
    load_documents loadO paths =
      ((paths.map (pathDocs loadO)).flatten, paths.filterMap (pathError loadO)) := by
  induction paths with
  | nil => rfl
  | cons p ps ih =>
    simp only [load_documents, ih, List.map_cons, List.flatten_cons, List.filterMap_cons]
    unfold pathDocs pathError
    cases hgl : get_loader p with
    | none => simp
    | some lk =>
      cases hlo : loadO p with
      | ok ds => simp
      | error e => simp

/-- C6: `process_documents` over a batch fails exactly when no document
loaded or no chunk was produced (for a splitter run that returns);
otherwise it succeeds with the count-bearing message aggregating the
per-file error count; and per-file failures never abort the batch: the
loaded documents and collected errors decompose path by path. -/
theorem process_documents_spec (loadO : String → Except String (List Doc))
    (splitO : List Doc → Except String (List Doc)) (paths : List String)
    (splits : List Doc) :
    load_documents loadO paths =
      ((paths.map (pathDocs loadO)).flatten, paths.filterMap (pathError loadO)) ∧
    (splitO (load_documents loadO paths).1 = .ok splits →
      (((process_documents loadO splitO paths).1 = false) ↔
        ((load_documents loadO paths).1 = [] ∨ splits = [])) ∧
      ((load_documents loadO paths).1 ≠ [] → splits ≠ [] →
        process_documents loadO splitO paths =
          (true, processSuccessMsg splits.length (load_documents loadO paths).2.length,
           splits))) := by
  refine ⟨load_documents_eq loadO paths, fun hs => ⟨?_, fun hd hsp => ?_⟩⟩
  · by_cases hd : (load_documents loadO paths).1 = []
    · simp [process_documents, List.isEmpty_iff, hd]
    · by_cases hsp : splits = []
      · simp [process_documents, split_documents, List.isEmpty_iff, hd, hs, hsp]
      · simp [process_documents, split_documents, List.isEmpty_iff, hd, hs, hsp]
  · simp [process_documents, split_documents, List.isEmpty_iff, hd, hs, hsp]

/-- Witness for C6: a batch of two loadable text files and one
unsupported file succeeds with 2 chunks and 1 reported error. -/
theorem process_documents_spec_witness :
    process_documents wLoadO wSplitId wPaths =
      (true, "Successfully processed 2 document chunks (with 1 errors)",
       [docAlpha, docBeta]) := by
  have h := ((process_documents_spec wLoadO wSplitId wPaths [docAlpha, docBeta]).2
    rfl).2 (by decide) (by decide)
  rw [h]
  decide

/-- Splitting off the first `n` characters of a drop: the window at
`m` of width `n` followed by the rest of the text from `m + n`. -/
theorem take_append_drop_drop {α : Type} (n m : Nat) (l : List α) :
    List.take n (List.drop m l) ++ List.drop (m + n) l = List.drop m l := by
  rw [← List.drop_drop]
  exact List.take_append_drop n (List.drop m l)

/-- The chunk stream always starts with the window at the current
position. -/
theorem chunksGo_head (S O : Nat) (hSO : O < S) (text : List Char) (start : Nat) :
    (chunksGo S O hSO text start).head? = some ((text.drop start).take S) := by
  unfold chunksGo
  split <;> rfl

/-- Dropping the overlap from every chunk and concatenating yields the
text from position `start + O` on. -/
theorem chunksGo_tail_flatten (S O : Nat) (hSO : O < S) (text : List Char) (start : Nat) :
    ((chunksGo S O hSO text start).map (List.drop O)).flatten = text.drop (start + O) := by
  induction start using chunksGo.induct S O hSO text with
  | case1 start h =>
    rw [chunksGo, dif_pos h]
    simp only [List.map_cons, List.map_nil, List.flatten_cons, List.flatten_nil,
      List.append_nil]
    rw [List.drop_take, List.drop_drop]
    refine List.take_of_length_le ?_
    simp only [List.length_drop]
    omega
  | case2 start h ih =>
    rw [chunksGo, dif_neg h]
    simp only [List.map_cons, List.flatten_cons]
    rw [ih, List.drop_take, List.drop_drop]
    have h2 : start + (S - O) + O = (start + O) + (S - O) := by omega
    rw [h2]
    exact take_append_drop_drop (S - O) (start + O) text

/-- The chunks reconstruct the text from `start` on. -/
theorem reconstruct_chunksGo (S O : Nat) (hSO : O < S) (text : List Char) (start : Nat) :
    reconstructChunks O (chunksGo S O hSO text start) = text.drop start := by
  rw [chunksGo]
  split
  next h =>
    simp only [reconstructChunks, List.map_nil, List.flatten_nil, List.append_nil]
    refine List.take_of_length_le ?_
    simp only [List.length_drop]
    omega
  next h =>
    simp only [reconstructChunks]
    rw [chunksGo_tail_flatten]
    have h2 : start + (S - O) + O = start + S := by omega
    rw [h2]
    exact take_append_drop_drop S start text

/-- Every chunk is at most `S` characters long. -/
theorem chunksGo_length_le (S O : Nat) (hSO : O < S) (text : List Char) (start : Nat) :
    ∀ c ∈ chunksGo S O hSO text start, c.length ≤ S := by
  induction start using chunksGo.induct S O hSO text with
  | case1 start h =>
    rw [chunksGo, dif_pos h]
    intro c hc
    simp only [List.mem_singleton] at hc
    subst hc
    rw [List.length_take]
    exact min_le_left _ _
  | case2 start h ih =>
    rw [chunksGo, dif_neg h]
    intro c hc
    rcases List.mem_cons.mp hc with hc | hc
    · subst hc
      rw [List.length_take]
      exact min_le_left _ _
    · exact ih c hc

/-- Each chunk's first `O` characters are its predecessor's last `O`
characters. -/
theorem chunksGo_chain (S O : Nat) (hSO : O < S) (text : List Char) (start : Nat) :
    List.Chain' (fun c₁ c₂ => c₂.take O = c₁.drop (c₁.length - O))
      (chunksGo S O hSO text start) := by
  induction start using chunksGo.induct S O hSO text with
  | case1 start h =>
    rw [chunksGo, dif_pos h]
    exact List.chain'_singleton _
  | case2 start h ih =>
    rw [chunksGo, dif_neg h]
    refine List.chain'_cons'.mpr ⟨?_, ih⟩
    intro y hy
    rw [chunksGo_head] at hy
    simp only [Option.mem_def, Option.some.injEq] at hy
    subst hy
    have hlen : ((text.drop start).take S).length = S := by
      rw [List.length_take, List.length_drop]
      omega
    rw [hlen, List.take_take, List.drop_take, List.drop_drop]
    have hmin : min O S = O := by omega
    have hSSO : S - (S - O) = O := by omega
    rw [hmin, hSSO]

/-- C9 (spec-modelled splitter): for every text and `O < S`,
concatenating the chunks' non-overlapping portions reconstructs the
text, every chunk (not just the non-final ones) has length at most `S`,
and each pair of adjacent chunks shares exactly the `O`-character
overlap. -/
theorem chunking_spec (S O : Nat) (hSO : O < S) (text : List Char) :
    reconstructChunks O (split_text S O text) = text ∧
    (∀ c ∈ split_text S O text, c.length ≤ S) ∧
    List.Chain' (fun c₁ c₂ => c₂.take O = c₁.drop (c₁.length - O))
      (split_text S O text) := by
  unfold split_text
  rw [dif_pos hSO]
  refine ⟨?_, chunksGo_length_le S O hSO text 0, chunksGo_chain S O hSO text 0⟩
  have h := reconstruct_chunksGo S O hSO text 0
  simpa using h

/-- Witness for C9: splitting an 8-character text with `S = 5`, `O = 2`
reconstructs it. -/
theorem chunking_spec_witness :
    reconstructChunks 2 (split_text 5 2 "abcdefgh".data) = "abcdefgh".data :=
  (chunking_spec 5 2 (by decide) "abcdefgh".data).1

end RAGLang
